import Mathlib

/-!
Shallow embedding of the Sciospec EIT device controller
(`src/eit_app/io/sciospec/device.py`, class `SciospecEITDevice`) and of the
notification dataclasses it emits (`src/eit_app/app/update_event.py`).

Modelling conventions:
* The measurement lifecycle state (`MultiStatewSignal` over `MeasuringStates`)
  is a plain field `meas_status`; `change_state` additionally fires the
  `changed` signal, which is connected to `emit_meas_status` and publishes a
  `MeasuringStatus` GUI notification.
* Every operation of the controller is a pure function from a `Device` state
  (plus environment oracles) to an `Effects` record holding the successor
  state, the list of GUI notifications emitted (`emit_to_gui`), the list of
  dataset notifications (`emit_to_dataset`) and the list of command frames
  handed to the communicator (`send_communicator`), in emission order.
* The success of a communicator round-trip (`send_cmd_frame` +
  `wait_not_busy`) depends on the physical device, so it enters the model as
  a `Bool` oracle argument (`sendOk`, `openOk`, ...).
-/

/-- The measurement lifecycle states (spec §4.4; `MeasuringStates` enum with
members IDLE / MEASURING / PAUSED used throughout `device.py`). -/
inductive MeasuringStates
  | IDLE
  | MEASURING
  | PAUSED
deriving Repr, DecidableEq

/-- The command classes of `com_constants` that `device.py` uses. -/
inductive SciospecCmd
  | CMD_START_STOP_MEAS
  | CMD_SET_OUTPUT_CONFIG
  | CMD_GET_OUTPUT_CONFIG
  | CMD_SET_ETHERNET_CONFIG
  | CMD_GET_ETHERNET_CONFIG
  | CMD_SET_MEAS_SETUP
  | CMD_GET_MEAS_SETUP
  | CMD_GET_DEVICE_INFOS
  | CMD_SOFT_RESET
deriving Repr, DecidableEq

/-- The command options of `com_constants` that `device.py` uses. -/
inductive SciospecOption
  | OP_NULL
  | OP_START_MEAS
  | OP_STOP_MEAS
  | OP_RESET_SETUP
  | OP_EXC_STAMP
  | OP_CURRENT_STAMP
  | OP_TIME_STAMP
  | OP_DHCP
  | OP_EXC_AMPLITUDE
  | OP_BURST_COUNT
  | OP_FRAME_RATE
  | OP_EXC_FREQUENCIES
  | OP_EXC_PATTERN
  | OP_IP_ADRESS
  | OP_MAC_ADRESS
deriving Repr, DecidableEq

/-- GUI notification events (the `EventDataClass` dataclasses of
`update_event.py` that `device.py` emits through `emit_to_gui`).
`FrameProgress` carries `idx_frame : Option Nat` because `pause_meas` passes
`None` for the frame index ("not update idx_frame"). -/
inductive GuiEvent
  | MeasuringStatus (s : MeasuringStates)
  | DevStatus (connected : Bool) (status_prompt : String)
  | FrameProgress (idx_frame : Option Nat) (progression : Nat)
  | FrameInfo (info : String)
  | DevSetup
  | DevAvailables (devices : List (String × String))
deriving Repr, DecidableEq

/-- Dataset notifications (`emit_to_dataset`): `reinit_4_pause` from
`dataset_init_for_pause`, `dev_setup` (carrying the setup snapshot) from
`dataset_init_for_start`. -/
inductive DatasetEvent
  | reinit_4_pause
  | dev_setup
deriving Repr, DecidableEq

/-- The state of a `SciospecEITDevice` as far as `device.py` reads or writes
it: the lifecycle state, the device name, the detected-devices map
(name ↦ port, an association list standing for the Python dict), the serial
interface `is_connected` flag, and the Setup Store fields `device.py`
touches (serial-number bytes, burst count, excitation pattern and the
pattern index `set_exc_pattern_idx` writes). -/
structure Device where
  meas_status : MeasuringStates
  device_name : String
  sciospec_devices : List (String × String)
  is_connected : Bool
  setup_sn : List Nat
  burst : Nat
  exc_pattern : List (Nat × Nat)
  exc_pattern_idx : Nat
deriving Repr, DecidableEq

/-- The string constant `NONE_DEVICE = "None Device"` of `device.py`. -/
def NONE_DEVICE : String := "None Device"

/-- The observable outcome of one controller operation: successor device
state, GUI notifications, dataset notifications, and command frames sent
to the communicator, each in emission order. -/
structure Effects where
  dev : Device
  gui : List GuiEvent
  ds : List DatasetEvent
  sent : List (SciospecCmd × SciospecOption)
deriving Repr, DecidableEq

/-- An operation that touches nothing: unchanged state, no notifications,
no frames sent. -/
def noEffects (d : Device) : Effects :=
  { dev := d, gui := [], ds := [], sent := [] }

/-- `is_measuring` property: `meas_status.is_set(MeasuringStates.MEASURING)`. -/
def is_measuring (d : Device) : Bool :=
  match d.meas_status with
  | .MEASURING => true
  | _ => false

/-- `is_paused` property: `meas_status.is_set(MeasuringStates.PAUSED)`. -/
def is_paused (d : Device) : Bool :=
  match d.meas_status with
  | .PAUSED => true
  | _ => false

/-- `is_idle` property: `meas_status.is_set(MeasuringStates.IDLE)`. -/
def is_idle (d : Device) : Bool :=
  match d.meas_status with
  | .IDLE => true
  | _ => false

/-- `connect_prompt` property: the f-string
`f'{self.device_name} - CONNECTED'` — built from the device name alone,
with no reference to the actual connection flag. -/
def connect_prompt (d : Device) : String :=
  d.device_name ++ " - CONNECTED"

/-- `emit_dev_status`: publishes `DevStatus(self.is_connected,
self.connect_prompt)` to the GUI. -/
def emit_dev_status_event (d : Device) : GuiEvent :=
  GuiEvent.DevStatus d.is_connected (connect_prompt d)

/-- `change_state` on the `meas_status` flag. Modelled from the spec: the
`changed` signal of `MultiStatewSignal` (library `glob_utils`, not under
`src/`) is connected to `emit_meas_status`, so a state change also publishes
a `MeasuringStatus` notification carrying the new state. -/
def change_state (d : Device) (s : MeasuringStates) : Device × List GuiEvent :=
  ({ d with meas_status := s }, [GuiEvent.MeasuringStatus s])

/-- `_stop_meas`: sends `(CMD_START_STOP_MEAS, OP_STOP_MEAS)` through the
communicator and waits; the round-trip success is the oracle `sendOk`.
No state or notification effect of its own. -/
def stop_frame : SciospecCmd × SciospecOption :=
  (SciospecCmd.CMD_START_STOP_MEAS, SciospecOption.OP_STOP_MEAS)

/-- `_start_meas`: sends `(CMD_START_STOP_MEAS, OP_START_MEAS)`. -/
def start_frame : SciospecCmd × SciospecOption :=
  (SciospecCmd.CMD_START_STOP_MEAS, SciospecOption.OP_START_MEAS)

/-- `stop_meas`: runs `_stop_meas`; on success changes state to IDLE and
emits `FrameProgress(0, 0)`; on failure leaves everything unchanged. The
stop frame is sent in either case. -/
def stop_meas (d : Device) (sendOk : Bool) : Effects :=
  if sendOk then
    let (d1, g1) := change_state d MeasuringStates.IDLE
    { dev := d1, gui := g1 ++ [GuiEvent.FrameProgress (some 0) 0],
      ds := [], sent := [stop_frame] }
  else
    { dev := d, gui := [], ds := [], sent := [stop_frame] }

/-- `pause_meas` (undecorated): runs `_stop_meas`; on success changes state
to PAUSED, emits the `reinit_4_pause` dataset marker and
`FrameProgress(None, 0)` (frame index deliberately not updated). -/
def pause_meas (d : Device) (sendOk : Bool) : Effects :=
  if sendOk then
    let (d1, g1) := change_state d MeasuringStates.PAUSED
    { dev := d1, gui := g1 ++ [GuiEvent.FrameProgress none 0],
      ds := [DatasetEvent.reinit_4_pause], sent := [stop_frame] }
  else
    { dev := d, gui := [], ds := [], sent := [stop_frame] }

/-- Body of `start_meas` (inside the `check_not_measuring()` decorator):
runs `_start_meas`; on success changes state to MEASURING and emits
`FrameInfo("")`; returns the communicator success. -/
def start_meas_body (sendOk : Bool) (d : Device) : Effects × Bool :=
  if sendOk then
    let (d1, g1) := change_state d MeasuringStates.MEASURING
    ({ dev := d1, gui := g1 ++ [GuiEvent.FrameInfo ""],
       ds := [], sent := [start_frame] }, true)
  else
    ({ dev := d, gui := [], ds := [], sent := [start_frame] }, false)

/-- Body of `resume_meas` (inside the `check_not_measuring()` decorator):
runs `_start_meas`; on success changes state to MEASURING; emits no
`FrameInfo`; returns the communicator success. -/
def resume_meas_body (sendOk : Bool) (d : Device) : Effects × Bool :=
  if sendOk then
    let (d1, g1) := change_state d MeasuringStates.MEASURING
    ({ dev := d1, gui := g1, ds := [], sent := [start_frame] }, true)
  else
    ({ dev := d, gui := [], ds := [], sent := [start_frame] }, false)

/-- The `check_not_measuring(force_stop)` decorator of `device.py`:
- if the device is not measuring, the wrapped function runs;
- else, if `force_stop`, `stop_meas` runs first and then the wrapped
  function runs;
- else the wrapped function is not run and `None` is returned.
The guard inspects only `is_measuring`, i.e. only the MEASURING state. -/
def check_not_measuring {α : Type} (force_stop : Bool)
    (func : Device → Effects × α) (d : Device) (stopOk : Bool) :
    Effects × Option α :=
  if is_measuring d = false then
    ((func d).1, some (func d).2)
  else if force_stop then
    let es := stop_meas d stopOk
    let r := func es.dev
    ({ dev := r.1.dev, gui := es.gui ++ r.1.gui, ds := es.ds ++ r.1.ds,
       sent := es.sent ++ r.1.sent }, some r.2)
  else
    (noEffects d, none)

/-- `start_meas`: the guarded (`@check_not_measuring()`) start operation. -/
def start_meas (d : Device) (sendOk stopOk : Bool) : Effects × Option Bool :=
  check_not_measuring false (start_meas_body sendOk) d stopOk

/-- `resume_meas`: the guarded (`@check_not_measuring()`) resume operation. -/
def resume_meas (d : Device) (sendOk stopOk : Bool) : Effects × Option Bool :=
  check_not_measuring false (resume_meas_body sendOk) d stopOk

/-- `start_paused_resume_meas`: dispatches on the lifecycle state — from
IDLE it first fires the `dev_setup` dataset marker (`dataset_init_for_start`)
and then runs `start_meas`; from MEASURING it runs `pause_meas`; from PAUSED
it runs `resume_meas`. -/
def start_paused_resume_meas (d : Device) (sendOk stopOk : Bool) : Effects :=
  if d.meas_status = MeasuringStates.IDLE then
    let e := (start_meas d sendOk stopOk).1
    { dev := e.dev, gui := e.gui, ds := DatasetEvent.dev_setup :: e.ds,
      sent := e.sent }
  else if d.meas_status = MeasuringStates.MEASURING then
    pause_meas d sendOk
  else if d.meas_status = MeasuringStates.PAUSED then
    (resume_meas d sendOk stopOk).1
  else
    noEffects d

/-- `check_nb_meas_reached`: if not measuring, do nothing; else read the
burst count from the Setup Store and, if it is positive and the reported
frame index equals it exactly, run `stop_meas`. -/
def check_nb_meas_reached (d : Device) (idx : Nat) (sendOk : Bool) : Effects :=
  if is_measuring d = false then
    noEffects d
  else if 0 < d.burst ∧ idx = d.burst then
    stop_meas d sendOk
  else
    noEffects d

/-- `_get_sciospec_port`: `None` (plus a warning box) when the detected
device dict is empty, `None` (plus an error box) when the name is not a key,
else the port stored under the name. -/
def _get_sciospec_port (d : Device) (device_name : String) : Option String :=
  match d.sciospec_devices with
  | [] => none
  | _ => d.sciospec_devices.lookup device_name

/-- Body of `set_device_name` (inside `check_not_measuring()`): resolves the
name to a port; `device_name` becomes the given name when a port was found,
`NONE_DEVICE` otherwise. -/
def set_device_name_body (name : String) (d : Device) : Effects × Unit :=
  match _get_sciospec_port d name with
  | some _ => ({ dev := { d with device_name := name }, gui := [], ds := [],
                 sent := [] }, ())
  | none => ({ dev := { d with device_name := NONE_DEVICE }, gui := [],
               ds := [], sent := [] }, ())

/-- `set_device_name`: the guarded name-selection operation. -/
def set_device_name (d : Device) (name : String) (stopOk : Bool) :
    Effects × Option Unit :=
  check_not_measuring false (set_device_name_body name) d stopOk

/-- Body of `get_device_infos` (inside `check_not_measuring()`): sends
`(CMD_GET_DEVICE_INFOS, OP_NULL)`, waits, and emits a `DevSetup` snapshot.
Modelled from the spec: the communicator routes the device-info reply into
the Setup Store (`new_rx_setup_stream` → `setup.set_data`, module
`communicator.py`/`setup.py` not under `src/`), so the serial-number bytes
the reply writes enter as the oracle `rx_sn` (`none` = no reply arrived). -/
def get_device_infos_body (rx_sn : Option (List Nat)) (d : Device) :
    Effects × Unit :=
  let d1 := match rx_sn with
    | some sn => { d with setup_sn := sn }
    | none => d
  ({ dev := d1, gui := [GuiEvent.DevSetup], ds := [],
     sent := [(SciospecCmd.CMD_GET_DEVICE_INFOS, SciospecOption.OP_NULL)] }, ())

/-- `get_device_infos`: the guarded operation. -/
def get_device_infos (d : Device) (rx_sn : Option (List Nat))
    (stopOk : Bool) : Effects × Option Unit :=
  check_not_measuring false (get_device_infos_body rx_sn) d stopOk

/-- `_connect_interface` / `serial_interface.open`: the open outcome is the
oracle `openOk`; the interface `is_connected` flag reflects it. -/
def _connect_interface (d : Device) (openOk : Bool) : Device × Bool :=
  ({ d with is_connected := openOk }, openOk)

/-- `_disconnect_interface` / `serial_interface.close`: clears the
`is_connected` flag; per spec §4.2 close is idempotent and reports success. -/
def _disconnect_interface (d : Device) : Device × Bool :=
  ({ d with is_connected := false }, true)

/-- Body of `connect_device` (inside `check_not_measuring()`): resolve the
current `device_name` to a port (return `False` when that fails); open the
interface; on success run the guarded `get_device_infos`; keep the device
name on success, reset it to `NONE_DEVICE` on failure; publish the device
status; return the open success. -/
def connect_device_body (openOk : Bool) (rx_sn : Option (List Nat))
    (stopOk : Bool) (d : Device) : Effects × Bool :=
  match _get_sciospec_port d d.device_name with
  | none => (noEffects d, false)
  | some _ =>
    let (d1, success) := _connect_interface d openOk
    let e2 := if success then (get_device_infos d1 rx_sn stopOk).1
              else noEffects d1
    let d3 := { e2.dev with device_name :=
                  if success then e2.dev.device_name else NONE_DEVICE }
    ({ dev := d3, gui := e2.gui ++ [emit_dev_status_event d3], ds := e2.ds,
       sent := e2.sent }, success)

/-- `connect_device`: the guarded connect operation. -/
def connect_device (d : Device) (openOk : Bool) (rx_sn : Option (List Nat))
    (stopOk : Bool) : Effects × Option Bool :=
  check_not_measuring false (connect_device_body openOk rx_sn stopOk) d stopOk

/-- `_check_is_sciospec_dev`: probes one candidate port — saves the current
Setup Store serial-number bytes (`tmp_sn`), opens the interface, force-stops
any stray measurement with `_stop_meas` (send only, no state transition),
runs the guarded `get_device_infos`, builds a device name from the
serial number now in the Setup Store (`setup.build_sciospec_device_name`,
modelled from the spec as the oracle `build_name` since `setup.py` is not
under `src/`), closes the interface, and finally restores the saved
serial-number bytes with `setup.set_sn(tmp_sn)`. -/
def _check_is_sciospec_dev (d : Device) (openOk stopOk : Bool)
    (rx_sn : Option (List Nat)) (build_name : List Nat → Option String) :
    Effects × Option String :=
  let tmp_sn := d.setup_sn
  let (d1, _) := _connect_interface d openOk
  let eg := (get_device_infos d1 rx_sn stopOk).1
  let device_name := build_name eg.dev.setup_sn
  let (d2, _) := _disconnect_interface eg.dev
  let d3 := { d2 with setup_sn := tmp_sn }
  ({ dev := d3, gui := eg.gui, ds := eg.ds,
     sent := stop_frame :: eg.sent }, device_name)

/-- The fixed list of frames sent by the body of `get_setup`, in source
order: the measurement-setup reads, the output-config reads, then the
ethernet-config reads. -/
def get_setup_sent : List (SciospecCmd × SciospecOption) :=
  [(SciospecCmd.CMD_GET_MEAS_SETUP, SciospecOption.OP_EXC_AMPLITUDE),
   (SciospecCmd.CMD_GET_MEAS_SETUP, SciospecOption.OP_BURST_COUNT),
   (SciospecCmd.CMD_GET_MEAS_SETUP, SciospecOption.OP_FRAME_RATE),
   (SciospecCmd.CMD_GET_MEAS_SETUP, SciospecOption.OP_EXC_FREQUENCIES),
   (SciospecCmd.CMD_GET_MEAS_SETUP, SciospecOption.OP_EXC_PATTERN),
   (SciospecCmd.CMD_GET_OUTPUT_CONFIG, SciospecOption.OP_EXC_STAMP),
   (SciospecCmd.CMD_GET_OUTPUT_CONFIG, SciospecOption.OP_CURRENT_STAMP),
   (SciospecCmd.CMD_GET_OUTPUT_CONFIG, SciospecOption.OP_TIME_STAMP),
   (SciospecCmd.CMD_GET_ETHERNET_CONFIG, SciospecOption.OP_IP_ADRESS),
   (SciospecCmd.CMD_GET_ETHERNET_CONFIG, SciospecOption.OP_MAC_ADRESS),
   (SciospecCmd.CMD_GET_ETHERNET_CONFIG, SciospecOption.OP_DHCP)]

/-- Body of `get_setup` (inside `check_not_measuring()`): sends the fixed
read sequence, waits, and emits a `DevSetup` snapshot. -/
def get_setup_body (d : Device) : Effects × Unit :=
  ({ dev := d, gui := [GuiEvent.DevSetup], ds := [],
     sent := get_setup_sent }, ())

/-- `get_setup`: the guarded operation. -/
def get_setup (d : Device) (stopOk : Bool) : Effects × Option Unit :=
  check_not_measuring false get_setup_body d stopOk

/-- The fixed prefix of frames sent by the body of `set_setup`, in source
order: the three output-stamp flags, the DHCP network config, then the
measurement setup starting with the pattern-state reset followed by
amplitude, burst count, frame rate and frequencies. -/
def set_setup_sent_prefix : List (SciospecCmd × SciospecOption) :=
  [(SciospecCmd.CMD_SET_OUTPUT_CONFIG, SciospecOption.OP_EXC_STAMP),
   (SciospecCmd.CMD_SET_OUTPUT_CONFIG, SciospecOption.OP_CURRENT_STAMP),
   (SciospecCmd.CMD_SET_OUTPUT_CONFIG, SciospecOption.OP_TIME_STAMP),
   (SciospecCmd.CMD_SET_ETHERNET_CONFIG, SciospecOption.OP_DHCP),
   (SciospecCmd.CMD_SET_MEAS_SETUP, SciospecOption.OP_RESET_SETUP),
   (SciospecCmd.CMD_SET_MEAS_SETUP, SciospecOption.OP_EXC_AMPLITUDE),
   (SciospecCmd.CMD_SET_MEAS_SETUP, SciospecOption.OP_BURST_COUNT),
   (SciospecCmd.CMD_SET_MEAS_SETUP, SciospecOption.OP_FRAME_RATE),
   (SciospecCmd.CMD_SET_MEAS_SETUP, SciospecOption.OP_EXC_FREQUENCIES)]

/-- `setup.set_exc_pattern_idx`: records which excitation-pattern row the
codec serializes next. Modelled from the spec (`setup.py` not under `src/`):
a plain index write into the Setup Store. -/
def set_exc_pattern_idx (d : Device) (idx : Nat) : Device :=
  { d with exc_pattern_idx := idx }

/-- The `for idx in range(len(self.setup.get_exc_pattern()))` loop of
`set_setup`: for each pattern row index, set the pattern index and send one
`(CMD_SET_MEAS_SETUP, OP_EXC_PATTERN)` frame. -/
def set_setup_loop (d : Device) : List Nat →
    Device × List (SciospecCmd × SciospecOption)
  | [] => (d, [])
  | i :: rest =>
    let d1 := set_exc_pattern_idx d i
    let (d2, s) := set_setup_loop d1 rest
    (d2, (SciospecCmd.CMD_SET_MEAS_SETUP, SciospecOption.OP_EXC_PATTERN) :: s)

/-- Body of `set_setup` (inside `check_not_measuring()`): sends the fixed
prefix, then one excitation-pattern frame per pattern row, waits, and
finally runs the guarded `get_setup` to read everything back. -/
def set_setup_body (stopOk : Bool) (d : Device) : Effects × Unit :=
  let (d1, loop_sent) := set_setup_loop d (List.range d.exc_pattern.length)
  let eg := (get_setup d1 stopOk).1
  ({ dev := eg.dev, gui := eg.gui, ds := eg.ds,
     sent := set_setup_sent_prefix ++ loop_sent ++ eg.sent }, ())

/-- `set_setup`: the guarded batch "apply full setup" operation. -/
def set_setup (d : Device) (stopOk : Bool) : Effects × Option Unit :=
  check_not_measuring false (set_setup_body stopOk) d stopOk

/-- A concrete idle device with one detected Sciospec device
("DevA" at port "COM3") and a two-row excitation pattern, used to evaluate
the theorems at explicit inputs. -/
def devIdleA : Device :=
  { meas_status := MeasuringStates.IDLE, device_name := "DevA",
    sciospec_devices := [("DevA", "COM3")], is_connected := false,
    setup_sn := [1, 2, 3], burst := 3, exc_pattern := [(1, 2), (2, 3)],
    exc_pattern_idx := 0 }

/-- The same device while measuring. -/
def devMeasuringA : Device :=
  { devIdleA with meas_status := MeasuringStates.MEASURING }

/-- The same device while paused. -/
def devPausedA : Device :=
  { devIdleA with meas_status := MeasuringStates.PAUSED }

/-- The measuring device with burst count 0 (unlimited acquisition). -/
def devBurst0 : Device :=
  { devMeasuringA with burst := 0 }

/-- C1 counterexample: with the device in the PAUSED state, the guarded
`get_setup` operation is not rejected — it runs (returns `some ()`), sends
its whole read sequence, performs no stop transition, and the state is
still PAUSED while and after it executes. This refutes "the operation never
executes while the state is still Measuring or Paused". -/
theorem get_setup_runs_while_paused :
    (get_setup devPausedA true).2 = some () ∧
    (get_setup devPausedA true).1.dev.meas_status = MeasuringStates.PAUSED ∧
    (get_setup devPausedA true).1.sent = get_setup_sent ∧
    stop_frame ∉ (get_setup devPausedA true).1.sent := by
  decide

/-- C1 (amended): the `check_not_measuring` guard — through which all eight
guarded operations are defined — inspects only the MEASURING state: with
`force_stop` unset, in state MEASURING the wrapped function is not run and
`None` is returned with no effects, while in state PAUSED the wrapped
function runs directly on the unchanged state. -/
theorem check_not_measuring_guard_spec {α : Type}
    (func : Device → Effects × α) (d : Device) (stopOk : Bool) :
    (d.meas_status = MeasuringStates.MEASURING →
      check_not_measuring false func d stopOk = (noEffects d, none)) ∧
    (d.meas_status = MeasuringStates.PAUSED →
      check_not_measuring false func d stopOk = ((func d).1, some (func d).2)) := by
  constructor <;> intro h <;> simp [check_not_measuring, is_measuring, h]

/-- Witness for the amended C1 theorem at concrete inputs: the guarded
`get_setup` body is rejected on the measuring device and runs unchanged on
the paused device. -/
theorem check_not_measuring_guard_spec_witness :
    check_not_measuring false get_setup_body devMeasuringA true
      = (noEffects devMeasuringA, none) ∧
    check_not_measuring false get_setup_body devPausedA true
      = ((get_setup_body devPausedA).1, some (get_setup_body devPausedA).2) :=
  ⟨(check_not_measuring_guard_spec get_setup_body devMeasuringA true).1 rfl,
   (check_not_measuring_guard_spec get_setup_body devPausedA true).2 rfl⟩

/-- C2: while MEASURING with a positive burst count, a reported frame index
equal to the burst count triggers exactly the `stop_meas` transition, which
(on communicator success) drives the state to IDLE; with burst count 0 or
when not measuring, nothing happens at all. -/
theorem check_nb_meas_reached_spec (d : Device) (idx : Nat) (sendOk : Bool) :
    (d.meas_status = MeasuringStates.MEASURING → 0 < d.burst → idx = d.burst →
      check_nb_meas_reached d idx true = stop_meas d true ∧
      (check_nb_meas_reached d idx true).dev.meas_status = MeasuringStates.IDLE) ∧
    (d.burst = 0 → check_nb_meas_reached d idx sendOk = noEffects d) ∧
    (d.meas_status ≠ MeasuringStates.MEASURING →
      check_nb_meas_reached d idx sendOk = noEffects d) := by
  refine ⟨?_, ?_, ?_⟩
  · intro hm hb hi
    constructor
    · simp [check_nb_meas_reached, is_measuring, hm, hb, hi]
    · simp [check_nb_meas_reached, is_measuring, hm, hb, hi, stop_meas,
            change_state]
  · intro hb
    by_cases hm : is_measuring d = false
    · simp [check_nb_meas_reached, hm]
    · simp [check_nb_meas_reached, hm, hb]
  · intro hm
    have hfalse : is_measuring d = false := by
      unfold is_measuring
      cases h : d.meas_status <;> simp_all
    simp [check_nb_meas_reached, hfalse]

/-- Witness for C2 at concrete inputs: burst 3 reached at frame 3 while
measuring stops to IDLE; burst 0 and the idle state trigger nothing. -/
theorem check_nb_meas_reached_spec_witness :
    (check_nb_meas_reached devMeasuringA 3 true).dev.meas_status
      = MeasuringStates.IDLE ∧
    check_nb_meas_reached devBurst0 5 true = noEffects devBurst0 ∧
    check_nb_meas_reached devIdleA 3 true = noEffects devIdleA :=
  ⟨((check_nb_meas_reached_spec devMeasuringA 3 true).1 rfl (by decide) rfl).2,
   (check_nb_meas_reached_spec devBurst0 5 true).2.1 rfl,
   (check_nb_meas_reached_spec devIdleA 3 true).2.2 (by decide)⟩

/-- C3 counterexample: from Idle with a successful send, the start step of
`start_paused_resume_meas` publishes the state change and the frame-info
reset (`FrameInfo ""`), but no `FrameProgress` notification at all — in
particular not `(0 frames, 0%)`, refuting the claimed start progress
notification. -/
theorem start_emits_no_progress_notification :
    (start_paused_resume_meas devIdleA true true).dev.meas_status
      = MeasuringStates.MEASURING ∧
    (start_paused_resume_meas devIdleA true true).gui =
      [GuiEvent.MeasuringStatus MeasuringStates.MEASURING,
       GuiEvent.FrameInfo ""] ∧
    GuiEvent.FrameProgress (some 0) 0 ∉
      (start_paused_resume_meas devIdleA true true).gui := by
  decide

/-- C3 (amended): from Idle a successful start brings the state to MEASURING
and publishes the frame-info reset (not a progress notification); the next
invocation pauses to PAUSED, publishing `FrameProgress(None, 0)` which
deliberately leaves the frame index untouched; the next invocation resumes
to MEASURING publishing only the state change — so the frame count is never
updated by the pause/resume round trip. -/
theorem start_pause_resume_cycle (d : Device)
    (h : d.meas_status = MeasuringStates.IDLE) :
    start_paused_resume_meas d true true =
      { dev := { d with meas_status := MeasuringStates.MEASURING },
        gui := [GuiEvent.MeasuringStatus MeasuringStates.MEASURING,
                GuiEvent.FrameInfo ""],
        ds := [DatasetEvent.dev_setup], sent := [start_frame] } ∧
    start_paused_resume_meas { d with meas_status := MeasuringStates.MEASURING }
        true true =
      { dev := { d with meas_status := MeasuringStates.PAUSED },
        gui := [GuiEvent.MeasuringStatus MeasuringStates.PAUSED,
                GuiEvent.FrameProgress none 0],
        ds := [DatasetEvent.reinit_4_pause], sent := [stop_frame] } ∧
    start_paused_resume_meas { d with meas_status := MeasuringStates.PAUSED }
        true true =
      { dev := { d with meas_status := MeasuringStates.MEASURING },
        gui := [GuiEvent.MeasuringStatus MeasuringStates.MEASURING],
        ds := [], sent := [start_frame] } := by
  refine ⟨?_, ?_, ?_⟩ <;>
    simp [start_paused_resume_meas, h, start_meas, resume_meas, pause_meas,
          check_not_measuring, is_measuring, start_meas_body,
          resume_meas_body, change_state, noEffects]

/-- Witness for the amended C3 theorem: the full cycle evaluated on the
concrete idle device. -/
theorem start_pause_resume_cycle_witness :
    start_paused_resume_meas devIdleA true true =
      { dev := { devIdleA with meas_status := MeasuringStates.MEASURING },
        gui := [GuiEvent.MeasuringStatus MeasuringStates.MEASURING,
                GuiEvent.FrameInfo ""],
        ds := [DatasetEvent.dev_setup], sent := [start_frame] } :=
  (start_pause_resume_cycle devIdleA rfl).1

/-- The excitation-pattern loop of `set_setup` sends exactly one
`(CMD_SET_MEAS_SETUP, OP_EXC_PATTERN)` frame per visited row index. -/
theorem set_setup_loop_sent (d : Device) (idxs : List Nat) :
    (set_setup_loop d idxs).2 =
      List.replicate idxs.length
        (SciospecCmd.CMD_SET_MEAS_SETUP, SciospecOption.OP_EXC_PATTERN) := by
  induction idxs generalizing d with
  | nil => simp [set_setup_loop]
  | cons i rest ih =>
    simp [set_setup_loop, set_exc_pattern_idx, ih, List.replicate_succ]

/-- The excitation-pattern loop only writes the pattern index: the lifecycle
state is untouched. -/
theorem set_setup_loop_status (d : Device) (idxs : List Nat) :
    (set_setup_loop d idxs).1.meas_status = d.meas_status := by
  induction idxs generalizing d with
  | nil => rfl
  | cons i rest ih => simp [set_setup_loop, set_exc_pattern_idx, ih]

/-- `is_measuring` only reads the lifecycle state. -/
theorem is_measuring_congr (d e : Device)
    (h : d.meas_status = e.meas_status) : is_measuring d = is_measuring e := by
  unfold is_measuring
  rw [h]

/-- C4: when the device is not measuring (so the guard lets the batch run),
`set_setup` pushes the configuration in the fixed source order — the three
output-stamp flags, the DHCP network config, the measurement setup starting
with the pattern-state reset then amplitude, burst count, frame rate and
frequencies, then exactly one excitation-pattern frame per pattern row —
followed by the read-back sequence of the trailing `get_setup` call; the
full trace contains exactly one set-pattern frame per pattern row. -/
theorem set_setup_sends_in_order (d : Device) (stopOk : Bool)
    (h : is_measuring d = false) :
    (set_setup d stopOk).1.sent =
      set_setup_sent_prefix ++
      List.replicate d.exc_pattern.length
        (SciospecCmd.CMD_SET_MEAS_SETUP, SciospecOption.OP_EXC_PATTERN) ++
      get_setup_sent ∧
    List.count (SciospecCmd.CMD_SET_MEAS_SETUP, SciospecOption.OP_EXC_PATTERN)
        (set_setup d stopOk).1.sent = d.exc_pattern.length := by
  have hloop :=
    set_setup_loop_status d (List.range d.exc_pattern.length)
  have hguard :
      is_measuring (set_setup_loop d (List.range d.exc_pattern.length)).1
        = false := by
    rw [is_measuring_congr _ d hloop]
    exact h
  have hmain :
      (set_setup d stopOk).1.sent =
        set_setup_sent_prefix ++
        List.replicate d.exc_pattern.length
          (SciospecCmd.CMD_SET_MEAS_SETUP, SciospecOption.OP_EXC_PATTERN) ++
        get_setup_sent := by
    simp [set_setup, check_not_measuring, h, set_setup_body, get_setup,
          hguard, get_setup_body, set_setup_loop_sent]
  refine ⟨hmain, ?_⟩
  rw [hmain]
  have h1 : List.count
      (SciospecCmd.CMD_SET_MEAS_SETUP, SciospecOption.OP_EXC_PATTERN)
      set_setup_sent_prefix = 0 := by decide
  have h2 : List.count
      (SciospecCmd.CMD_SET_MEAS_SETUP, SciospecOption.OP_EXC_PATTERN)
      get_setup_sent = 0 := by decide
  simp [List.count_append, List.count_replicate_self, h1, h2]

/-- Witness for C4 at the concrete idle device with a two-row pattern. -/
theorem set_setup_sends_in_order_witness :
    (set_setup devIdleA true).1.sent =
      set_setup_sent_prefix ++
      List.replicate devIdleA.exc_pattern.length
        (SciospecCmd.CMD_SET_MEAS_SETUP, SciospecOption.OP_EXC_PATTERN) ++
      get_setup_sent :=
  (set_setup_sends_in_order devIdleA true rfl).1

/-- C5: from MEASURING or PAUSED, `stop_meas` sends the Stop command, and on
communicator success changes the state to IDLE and publishes the state
change followed by the progress reset `FrameProgress(0, 0)`. -/
theorem stop_meas_spec (d : Device) (sendOk : Bool)
    (h : d.meas_status = MeasuringStates.MEASURING ∨
         d.meas_status = MeasuringStates.PAUSED) :
    (stop_meas d sendOk).sent = [stop_frame] ∧
    (sendOk = true →
      (stop_meas d sendOk).dev.meas_status = MeasuringStates.IDLE ∧
      (stop_meas d sendOk).gui =
        [GuiEvent.MeasuringStatus MeasuringStates.IDLE,
         GuiEvent.FrameProgress (some 0) 0]) := by
  cases sendOk <;> simp [stop_meas, change_state]

/-- Witness for C5: stopping the concrete measuring device with a successful
send. -/
theorem stop_meas_spec_witness :
    (stop_meas devMeasuringA true).dev.meas_status = MeasuringStates.IDLE ∧
    (stop_meas devMeasuringA true).gui =
      [GuiEvent.MeasuringStatus MeasuringStates.IDLE,
       GuiEvent.FrameProgress (some 0) 0] :=
  (stop_meas_spec devMeasuringA true (Or.inl rfl)).2 rfl

/-- C6: resume from PAUSED sends the Start command again and publishes only
the state change — no `FrameInfo` notification — whereas a fresh start from
IDLE publishes the state change and the frame-info reset `FrameInfo ""`;
the two operations are distinguishable by that notification. -/
theorem resume_vs_start_notifications (d e : Device)
    (hp : d.meas_status = MeasuringStates.PAUSED)
    (hi : e.meas_status = MeasuringStates.IDLE) :
    (resume_meas d true true).1.sent = [start_frame] ∧
    (resume_meas d true true).1.gui =
      [GuiEvent.MeasuringStatus MeasuringStates.MEASURING] ∧
    (start_meas e true true).1.sent = [start_frame] ∧
    (start_meas e true true).1.gui =
      [GuiEvent.MeasuringStatus MeasuringStates.MEASURING,
       GuiEvent.FrameInfo ""] := by
  refine ⟨?_, ?_, ?_, ?_⟩ <;>
    simp [resume_meas, start_meas, check_not_measuring, is_measuring, hp, hi,
          resume_meas_body, start_meas_body, change_state]

/-- Witness for C6 on the concrete paused and idle devices. -/
theorem resume_vs_start_notifications_witness :
    (resume_meas devPausedA true true).1.gui =
      [GuiEvent.MeasuringStatus MeasuringStates.MEASURING] ∧
    (start_meas devIdleA true true).1.gui =
      [GuiEvent.MeasuringStatus MeasuringStates.MEASURING,
       GuiEvent.FrameInfo ""] :=
  ⟨(resume_vs_start_notifications devPausedA devIdleA rfl rfl).2.1,
   (resume_vs_start_notifications devPausedA devIdleA rfl rfl).2.2.2⟩

/-- C7: probing a candidate port with `_check_is_sciospec_dev` restores the
Setup Store serial number: whatever the probe's device-info exchange wrote
into the Setup Store, the serial-number bytes after the probe equal the
bytes held before it, for every port outcome, reply and name-builder. -/
theorem probe_restores_serial_number (d : Device) (openOk stopOk : Bool)
    (rx_sn : Option (List Nat)) (build_name : List Nat → Option String) :
    (_check_is_sciospec_dev d openOk stopOk rx_sn build_name).1.dev.setup_sn
      = d.setup_sn := rfl

/-- C8: with the device list `{"DevA" ↦ "COM3"}`, the name "DevA" selected
and a successful open, `connect_device` returns success, keeps the name,
publishes the device status `DevStatus(true, "DevA - CONNECTED")`, and the
lifecycle state stays IDLE. -/
theorem connect_devA_scenario :
    (connect_device devIdleA true none true).2 = some true ∧
    (connect_device devIdleA true none true).1.dev.device_name = "DevA" ∧
    GuiEvent.DevStatus true "DevA - CONNECTED" ∈
      (connect_device devIdleA true none true).1.gui ∧
    (connect_device devIdleA true none true).1.dev.meas_status
      = MeasuringStates.IDLE := by
  decide

/-- C9: for each of the four lifecycle operations, a failed communicator
send leaves the device state completely unchanged and publishes no GUI
notification (in particular no progress reset) and no dataset marker —
failure is atomic with respect to the lifecycle state. -/
theorem lifecycle_send_failure_atomic (d : Device) (stopOk : Bool) :
    ((start_meas d false stopOk).1.dev = d ∧
     (start_meas d false stopOk).1.gui = []) ∧
    ((resume_meas d false stopOk).1.dev = d ∧
     (resume_meas d false stopOk).1.gui = []) ∧
    ((pause_meas d false).dev = d ∧ (pause_meas d false).gui = [] ∧
     (pause_meas d false).ds = []) ∧
    ((stop_meas d false).dev = d ∧ (stop_meas d false).gui = []) := by
  refine ⟨⟨?_, ?_⟩, ⟨?_, ?_⟩, ⟨?_, ?_, ?_⟩, ⟨?_, ?_⟩⟩ <;>
    first
    | simp [pause_meas, stop_meas]
    | (by_cases hm : is_measuring d = false <;>
        simp [start_meas, resume_meas, check_not_measuring, hm,
              start_meas_body, resume_meas_body, noEffects])

/-- C10: the `connect_prompt` property equals
`device_name ++ " - CONNECTED"` for every device state, independent of the
actual connection flag; after a failed connection attempt (open fails on a
resolved port), the device name is reset to `NONE_DEVICE` and the published
status notification carries the prompt "None Device - CONNECTED" together
with a false connected flag. -/
theorem connect_prompt_ignores_connection :
    (∀ d : Device, connect_prompt d = d.device_name ++ " - CONNECTED") ∧
    (connect_device devIdleA false none true).2 = some false ∧
    (connect_device devIdleA false none true).1.dev.device_name
      = NONE_DEVICE ∧
    GuiEvent.DevStatus false "None Device - CONNECTED" ∈
      (connect_device devIdleA false none true).1.gui := by
  refine ⟨fun d => rfl, ?_, ?_, ?_⟩ <;> decide
